import Mathlib

/-
Verification of the health-check aggregation engine (alexliesenfeld/health).

Shallow embedding of the core checker logic: the per-component check state
machine, the failure-tolerance evaluation, the status aggregation rule, the
interceptor chain, the check-execution path with timeout and panic recovery,
the result cache, the Start/Stop lifecycle and the status-change notification.

Conventions of the embedding:
  - Go time.Time instants are modelled as integers (GoTime := Int); the zero
    value of time.Time (the "zero sentinel", t.IsZero()) is modelled as 0.
    t.Add(d) is t + d, t.After(u) is t > u, t.Before(u) is t < u.
  - Go time.Duration is modelled as an integer (GoDuration := Int).
  - Every call of time.Now() inside one execution step is modelled as the
    same explicit parameter `now` (the calls differ only by nanoseconds and
    no property below depends on that difference).
  - Go error values are modelled by the GoError structure (an error with a
    message); a Go `error` variable (which may be nil) is an Option GoError,
    with none standing for nil.
  - The uint counter ContiguousFails is modelled as Nat: its Go uint64
    wrap-around would require 2^64 contiguous failing executions and is
    unreachable.
  - context.Context is not modelled; functions that only thread the context
    drop that parameter.
-/

namespace Health

/-- Go time.Time modelled as an integer instant; 0 is the zero sentinel. -/
abbrev GoTime := Int

/-- Go time.Duration modelled as an integer. -/
abbrev GoDuration := Int

/-- Go error values: an error carrying a message (errors.New / fmt.Errorf). -/
structure GoError where
  msg : String
deriving DecidableEq, Repr

/-- AvailabilityStatus is a string type in the source
(`type AvailabilityStatus string`). -/
abbrev AvailabilityStatus := String

/-- StatusUnknown constant of the source. -/
def StatusUnknown : AvailabilityStatus := "unknown"

/-- StatusUp constant of the source. -/
def StatusUp : AvailabilityStatus := "up"

/-- StatusDown constant of the source. -/
def StatusDown : AvailabilityStatus := "down"

/-- criticality of an AvailabilityStatus: the Go switch returns 2 for
StatusDown, 1 for StatusUnknown and 0 in the default case. -/
def criticality (s : AvailabilityStatus) : Nat :=
  if s = StatusDown then 2
  else if s = StatusUnknown then 1
  else 0

/-- CheckTimeoutErr, the synthetic error value
`errors.New("check timed out")`. -/
def CheckTimeoutErr : GoError := ⟨"check timed out"⟩

/-- CheckState of the source: the per-component mutable record. Timestamps
use the zero sentinel 0 for "never happened"; Result is none when the last
execution succeeded. -/
structure CheckState where
  LastCheckedAt : GoTime
  LastSuccessAt : GoTime
  LastFailureAt : GoTime
  FirstCheckStartedAt : GoTime
  ContiguousFails : Nat
  Result : Option GoError
  Status : AvailabilityStatus
deriving DecidableEq, Repr

/-- evaluateCheckConfig interface of the source: the two threshold accessors
maxTimeInError() and maxFails(). -/
structure EvalCheckConfig where
  maxTimeInError : GoDuration
  maxFails : Nat
deriving DecidableEq, Repr

/-- evaluateCheckStatus of the source, with the two time.Now() calls passed
in as `now`. The branch structure follows the Go function:
if LastCheckedAt.IsZero() return Unknown; else if Result != nil, the
condition `failCountThresholdCrossed && timeInErrorThresholdCrossed` selects
Down, where
  maxTimeInErrorSinceStartPassed = not (FirstCheckStartedAt + d).After(now),
    i.e. FirstCheckStartedAt + d <= now,
  maxTimeInErrorSinceLastSuccessPassed = LastSuccessAt.IsZero() or
    LastSuccessAt + d <= now,
  failCountThresholdCrossed = ContiguousFails >= maxFails;
every remaining path returns Up. -/
def evaluateCheckStatus (state : CheckState) (config : EvalCheckConfig)
    (now : GoTime) : AvailabilityStatus :=
  if state.LastCheckedAt = 0 then
    StatusUnknown
  else if state.Result = none then
    StatusUp
  else if (config.maxFails ≤ state.ContiguousFails) ∧
      ((state.FirstCheckStartedAt + config.maxTimeInError ≤ now) ∧
        (state.LastSuccessAt = 0 ∨ state.LastSuccessAt + config.maxTimeInError ≤ now)) then
    StatusDown
  else
    StatusUp

/-- createNextCheckState of the source: stores the execution result, stamps
LastCheckedAt with now, resets the fail counter and stamps LastSuccessAt on
success, increments the counter and stamps LastFailureAt on failure, then
derives Status with evaluateCheckStatus. -/
def createNextCheckState (result : Option GoError) (check : EvalCheckConfig)
    (state : CheckState) (now : GoTime) : CheckState :=
  let s1 : CheckState := { state with Result := result, LastCheckedAt := now }
  let s2 : CheckState :=
    if s1.Result = none then
      { s1 with ContiguousFails := 0, LastSuccessAt := now }
    else
      { s1 with ContiguousFails := s1.ContiguousFails + 1, LastFailureAt := now }
  { s2 with Status := evaluateCheckStatus s2 check now }

/-- Loop body of aggregateStatus: replace the accumulator when the entry has
strictly higher criticality (`result.Status.criticality() > status.criticality()`). -/
def aggregateStep (status : AvailabilityStatus) (resultStatus : AvailabilityStatus) :
    AvailabilityStatus :=
  if criticality status < criticality resultStatus then resultStatus else status

/-- aggregateStatus of the source: fold the map of component states,
starting from StatusUp, keeping the status of maximal criticality. The Go
map is represented as an association list of (name, state) entries; since
aggregation only compares criticalities, the iteration order of the Go map
does not matter for the statements proved below. -/
def aggregateStatus (results : List (String × CheckState)) : AvailabilityStatus :=
  results.foldl (fun status result => aggregateStep status result.2.Status) StatusUp

/-- statusInEnum s states that s is one of the three declared status
constants (AvailabilityStatus is a string type, so other values are
representable; the checker itself only ever produces these three). -/
abbrev statusInEnum (s : AvailabilityStatus) : Prop :=
  s = StatusUp ∨ s = StatusDown ∨ s = StatusUnknown

/-- InterceptorFunc of the source, with the context parameter dropped:
it receives the check name and the check state and produces a state. -/
abbrev InterceptorFunc := String → CheckState → CheckState

/-- Interceptor of the source: a factory wrapping the next InterceptorFunc. -/
abbrev Interceptor := InterceptorFunc → InterceptorFunc

/-- withInterceptors of the source. The Go loop walks the slice from the
last index down to 0, each step wrapping the chain built so far, so the
interceptor at index 0 is applied last and ends up outermost; this downward
loop is exactly a right fold of application over the list. -/
def withInterceptors (interceptors : List Interceptor) (target : InterceptorFunc) :
    InterceptorFunc :=
  interceptors.foldr (fun interceptor chain => interceptor chain) target

/-- Check of the source (the fields the checker core reads): the name, the
per-check timeout, the two failure-tolerance thresholds, the panic-recovery
opt-out flag and the per-check interceptor list. The check function itself
is user-supplied code; its behaviour during one execution is passed to the
execution functions below as an explicit CheckFuncBehavior value. -/
structure Check where
  Name : String
  Timeout : GoDuration
  MaxTimeInError : GoDuration
  MaxContiguousFails : Nat
  DisablePanicRecovery : Bool
  Interceptors : List Interceptor

/-- maxFails and maxTimeInError accessors of the source (the Check
implementation of the evaluateCheckConfig interface). -/
def Check.evalConfig (c : Check) : EvalCheckConfig :=
  ⟨c.MaxTimeInError, c.MaxContiguousFails⟩

/-- Value passed to panic by a check function: either an error value (the
`r.(error)` type assertion succeeds) or any other value, represented by its
`fmt` text. -/
inductive PanicValue where
  | isError (e : GoError)
  | other (formatted : String)
deriving DecidableEq, Repr

/-- Behaviour of one invocation of the user-supplied check function: it
returns a result, panics with a value, or never returns. -/
inductive CheckFuncBehavior where
  | returns (result : Option GoError)
  | panics (value : PanicValue)
  | hangs
deriving DecidableEq, Repr

/-- Outcome of executeCheckFunc: a normally returned error value, an
unrecovered panic escaping the check goroutine, or blocking forever (check
function hangs and the context never completes). -/
inductive ExecOutcome where
  | value (result : Option GoError)
  | panicked (value : PanicValue)
  | blocksForever
deriving DecidableEq, Repr

/-- Conversion done by the recover branch of executeCheckFunc: if the panic
value is an error it is sent as is, otherwise `fmt.Errorf("%v", r)` wraps
its formatted text in a new error. -/
def recoverPanic : PanicValue → GoError
  | .isError e => e
  | .other s => ⟨s⟩

/-- executeCheckFunc of the source. The check function runs in its own
goroutine, sending its result (or the recovered panic error) into a
buffered channel of size 1; the caller selects between that channel and
ctx.Done(). The select race is modelled by `deadlineFirst`: true when
ctx.Done() becomes ready before a value is available on the channel, in
which case the synthetic CheckTimeoutErr is returned and the goroutine is
left running, its eventual channel value discarded. When panic recovery is
disabled, a panic is not recovered: it escapes the goroutine (in Go this
crashes the process) instead of being returned as a value. -/
def executeCheckFunc (check : Check) (behavior : CheckFuncBehavior)
    (deadlineFirst : Bool) : ExecOutcome :=
  match behavior with
  | .returns r =>
      if deadlineFirst then .value (some CheckTimeoutErr) else .value r
  | .panics v =>
      if check.DisablePanicRecovery then .panicked v
      else if deadlineFirst then .value (some CheckTimeoutErr)
      else .value (some (recoverPanic v))
  | .hangs =>
      if deadlineFirst then .value (some CheckTimeoutErr) else .blocksForever

/-- Innermost InterceptorFunc built inside executeCheck: the actual check
execution plus state advance. `checkFuncResult` is the error value returned
by executeCheckFunc for this execution. -/
def executeCheckTarget (check : Check) (checkFuncResult : Option GoError)
    (now : GoTime) : InterceptorFunc :=
  fun _ state => createNextCheckState checkFuncResult check.evalConfig state now

/-- executeCheck of the source: stamps FirstCheckStartedAt on the first
execution attempt, then runs the interceptor chain (global interceptors
first, then per-check interceptors) around the innermost execution target.
The onStateChange notification is a side effect and is not part of the
returned state. -/
def executeCheck (cfgInterceptors : List Interceptor) (check : Check)
    (checkFuncResult : Option GoError) (oldState : CheckState) (now : GoTime) :
    CheckState :=
  let newState : CheckState :=
    if oldState.FirstCheckStartedAt = 0 then
      { oldState with FirstCheckStartedAt := now }
    else oldState
  withInterceptors (cfgInterceptors ++ check.Interceptors)
    (executeCheckTarget check checkFuncResult now) check.Name newState

/-- isCacheExpired of the source:
`state.LastCheckedAt.IsZero() || state.LastCheckedAt.Before(time.Now().Add(-cacheDuration))`. -/
def isCacheExpired (cacheDuration : GoDuration) (state : CheckState) (now : GoTime) :
    Bool :=
  decide (state.LastCheckedAt = 0) || decide (state.LastCheckedAt < now - cacheDuration)

/-- One iteration of the runSynchronousChecks loop for a single registered
synchronous check: when the cached state is still fresh the check is
skipped (`continue`) and its state is not touched; otherwise the check is
initiated and executeCheck produces its new state. The Bool records
whether the check was initiated. -/
def runSyncCheckStep (cacheTTL : GoDuration) (cfgInterceptors : List Interceptor)
    (check : Check) (checkFuncResult : Option GoError) (state : CheckState)
    (now : GoTime) : Bool × CheckState :=
  if isCacheExpired cacheTTL state now then
    (true, executeCheck cfgInterceptors check checkFuncResult state now)
  else
    (false, state)

/-- checkResult of the source: one state update produced by a check run. -/
structure checkResult where
  checkName : String
  newState : CheckState
deriving DecidableEq, Repr

/-- CheckerState of the source: the aggregated status plus the map from
check name to check state, the map represented as an association list. -/
structure CheckerState where
  Status : AvailabilityStatus
  CheckState : List (String × Health.CheckState)
deriving DecidableEq, Repr

/-- Go map assignment `m[name] = s` on the association-list representation:
replace the entry when the key is present, append it otherwise. -/
def setCheckState (m : List (String × CheckState)) (name : String)
    (s : CheckState) : List (String × CheckState) :=
  if m.any (fun p => p.1 = name) then
    m.map (fun p => if p.1 = name then (name, s) else p)
  else
    m ++ [(name, s)]

/-- updateState of the source: write every update into the state map,
recompute the aggregate status, and invoke the system-wide status-change
listener exactly when the aggregate status changed and a listener is
configured. `listenerSet` models `ck.cfg.statusChangeListener != nil`; the
returned Bool records whether the listener was invoked. -/
def updateState (listenerSet : Bool) (st : CheckerState)
    (updates : List checkResult) : CheckerState × Bool :=
  let m := updates.foldl (fun m u => setCheckState m u.checkName u.newState) st.CheckState
  let newStatus := aggregateStatus m
  let fired := decide (st.Status ≠ newStatus) && listenerSet
  ({ Status := newStatus, CheckState := m }, fired)

/-- Lifecycle-relevant fields of the defaultChecker: the started flag, the
running async (periodic) check count, and whether ck.cancel has been set
(it is the nil zero value until the first Start). -/
structure CheckerLifecycle where
  started : Bool
  asyncCheckCount : Nat
  cancelSet : Bool
deriving DecidableEq, Repr

/-- State of a checker fresh out of newChecker with autostart disabled:
not started, no running async checks, ck.cancel still nil. -/
def newCheckerLifecycle : CheckerLifecycle :=
  { started := false, asyncCheckCount := 0, cancelSet := false }

/-- Start of the source: when not yet started, installs a cancel function,
sets the started flag and (via startAsyncChecks) increments the async check
count once per configured async (periodic) check; when already started it
does nothing. The initial `go ck.Check(ctx)` does not touch these fields. -/
def checkerStart (numAsyncChecks : Nat) (s : CheckerLifecycle) : CheckerLifecycle :=
  if s.started then s
  else
    { started := true,
      asyncCheckCount := s.asyncCheckCount + numAsyncChecks,
      cancelSet := true }

/-- Stop of the source: it first calls ck.cancel() unconditionally. When
the checker has never been started, ck.cancel is the nil zero value and the
call panics; this is modelled as none. Otherwise Stop waits for the async
loops, clears the started flag and resets the count to 0 (the cancel
function stays set). -/
def checkerStop (s : CheckerLifecycle) : Option CheckerLifecycle :=
  if s.cancelSet then
    some { s with started := false, asyncCheckCount := 0 }
  else
    none

/-- GetRunningPeriodicCheckCount of the source (an alias of
GetRunningAsyncCheckCount): reads the async check count. -/
def GetRunningPeriodicCheckCount (s : CheckerLifecycle) : Nat :=
  s.asyncCheckCount

/-- Pristine never-run check state, as initialised by newChecker:
all timestamps at the zero sentinel, no result, StatusUnknown. -/
def pristineState : CheckState :=
  { LastCheckedAt := 0, LastSuccessAt := 0, LastFailureAt := 0,
    FirstCheckStartedAt := 0, ContiguousFails := 0, Result := none,
    Status := StatusUnknown }

/-- Concrete check state whose last execution failed and whose LastSuccessAt
lies in the future of the evaluation instant 10 (possible for the pure
function, though not produced by the state machine itself). -/
def futureSuccessState : CheckState :=
  { LastCheckedAt := 5, LastSuccessAt := 100, LastFailureAt := 5,
    FirstCheckStartedAt := 1, ContiguousFails := 1,
    Result := some ⟨"connection refused"⟩, Status := StatusUp }

/-- Concrete check state whose last execution failed and that has never
succeeded. -/
def failingState : CheckState :=
  { LastCheckedAt := 5, LastSuccessAt := 0, LastFailureAt := 5,
    FirstCheckStartedAt := 1, ContiguousFails := 3,
    Result := some ⟨"connection refused"⟩, Status := StatusDown }

/-- Concrete healthy check state. -/
def exampleUpState : CheckState :=
  { LastCheckedAt := 5, LastSuccessAt := 5, LastFailureAt := 0,
    FirstCheckStartedAt := 1, ContiguousFails := 0, Result := none,
    Status := StatusUp }

/-- Concrete unhealthy check state. -/
def exampleDownState : CheckState :=
  { LastCheckedAt := 6, LastSuccessAt := 0, LastFailureAt := 6,
    FirstCheckStartedAt := 1, ContiguousFails := 2,
    Result := some ⟨"no route to host"⟩, Status := StatusDown }

/-- Concrete check with default panic recovery and no interceptors. -/
def plainCheck : Check :=
  { Name := "db", Timeout := 0, MaxTimeInError := 0, MaxContiguousFails := 0,
    DisablePanicRecovery := false, Interceptors := [] }

/-- Concrete check that opts out of panic recovery. -/
def noRecoveryCheck : Check :=
  { Name := "db", Timeout := 0, MaxTimeInError := 0, MaxContiguousFails := 0,
    DisablePanicRecovery := true, Interceptors := [] }

/-- Concrete checker state with no components and aggregate StatusUp. -/
def emptyCheckerState : CheckerState :=
  { Status := StatusUp, CheckState := [] }

/-- Concrete lifecycle state of a started checker running three async
(periodic) checks. -/
def startedLifecycle : CheckerLifecycle :=
  { started := true, asyncCheckCount := 3, cancelSet := true }

/-- createNextCheckState always stamps LastCheckedAt with now. -/
lemma createNextCheckState_lastCheckedAt (result : Option GoError)
    (cfg : EvalCheckConfig) (state : CheckState) (now : GoTime) :
    (createNextCheckState result cfg state now).LastCheckedAt = now := by
  by_cases h : result = none <;> simp [createNextCheckState, h]

/-- Status stored by createNextCheckState is evaluateCheckStatus of the
produced state itself (evaluateCheckStatus does not read the Status field,
so overwriting Status does not change the evaluation). -/
lemma createNextCheckState_status (result : Option GoError)
    (cfg : EvalCheckConfig) (state : CheckState) (now : GoTime) :
    (createNextCheckState result cfg state now).Status =
      evaluateCheckStatus (createNextCheckState result cfg state now) cfg now := by
  by_cases h : result = none <;>
    simp [createNextCheckState, evaluateCheckStatus, h]

/-- C1 (amended): evaluateCheckStatus returns Unknown iff LastCheckedAt is
the zero sentinel; otherwise a nil last result gives Up; a failing last
result gives Down iff ContiguousFails reaches maxFails, now has passed
FirstCheckStartedAt + maxTimeInError, and LastSuccessAt is zero or now has
passed LastSuccessAt + maxTimeInError, and gives Up in every other failing
case; with both thresholds zero, a failing state whose FirstCheckStartedAt
is not in the future and whose LastSuccessAt is zero or not in the future
evaluates to Down. -/
theorem evaluateCheckStatus_characterization :
    ∀ (state : CheckState) (cfg : EvalCheckConfig) (now : GoTime),
    (evaluateCheckStatus state cfg now = StatusUnknown ↔ state.LastCheckedAt = 0)
    ∧ (state.LastCheckedAt ≠ 0 → state.Result = none →
        evaluateCheckStatus state cfg now = StatusUp)
    ∧ (state.LastCheckedAt ≠ 0 → state.Result ≠ none →
        (evaluateCheckStatus state cfg now = StatusDown ↔
          (cfg.maxFails ≤ state.ContiguousFails ∧
            (state.FirstCheckStartedAt + cfg.maxTimeInError ≤ now ∧
              (state.LastSuccessAt = 0 ∨
                state.LastSuccessAt + cfg.maxTimeInError ≤ now)))))
    ∧ (state.LastCheckedAt ≠ 0 → state.Result ≠ none →
        evaluateCheckStatus state cfg now ≠ StatusDown →
        evaluateCheckStatus state cfg now = StatusUp)
    ∧ (state.LastCheckedAt ≠ 0 → state.Result ≠ none →
        state.FirstCheckStartedAt ≤ now →
        (state.LastSuccessAt = 0 ∨ state.LastSuccessAt ≤ now) →
        evaluateCheckStatus state ⟨0, 0⟩ now = StatusDown) := by
  intro state cfg now
  refine ⟨?_, ?_, ?_, ?_, ?_⟩
  · unfold evaluateCheckStatus
    split_ifs with h0 h1 h2 <;> simp [h0] <;> decide
  · intro h0 h1
    simp [evaluateCheckStatus, h0, h1]
  · intro h0 h1
    unfold evaluateCheckStatus
    rw [if_neg h0, if_neg h1]
    split_ifs with hc
    · simp [hc]
    · simp only [hc, iff_false]
      decide
  · intro h0 h1
    unfold evaluateCheckStatus
    rw [if_neg h0, if_neg h1]
    split_ifs <;> simp
  · intro h0 h1 hstart hsucc
    have hc : ((⟨0, 0⟩ : EvalCheckConfig).maxFails ≤ state.ContiguousFails ∧
        (state.FirstCheckStartedAt + (⟨0, 0⟩ : EvalCheckConfig).maxTimeInError ≤ now ∧
          (state.LastSuccessAt = 0 ∨
            state.LastSuccessAt + (⟨0, 0⟩ : EvalCheckConfig).maxTimeInError ≤ now))) := by
      refine ⟨Nat.zero_le _, ?_, ?_⟩
      · simpa using hstart
      · simpa using hsucc
    unfold evaluateCheckStatus
    rw [if_neg h0, if_neg h1, if_pos hc]

/-- C1 witness: a concrete failing state with three contiguous fails and no
recorded success evaluates to Down under zero thresholds. -/
theorem evaluateCheckStatus_characterization_witness :
    evaluateCheckStatus failingState ⟨0, 0⟩ 10 = StatusDown :=
  (evaluateCheckStatus_characterization failingState ⟨0, 0⟩ 10).2.2.2.2
    (by decide) (by decide) (by decide) (by decide)

/-- C1 counterexample: the final clause of the claim fails as stated. The
concrete state futureSuccessState has a failing last result and a
FirstCheckStartedAt that is not in the future of now = 10, yet under
maxContiguousFails = 0 and maxTimeInError = 0 it evaluates to Up, not Down,
because its nonzero LastSuccessAt = 100 lies in the future of now. -/
theorem evaluateCheckStatus_zero_thresholds_not_always_down :
    futureSuccessState.Result ≠ none ∧
    futureSuccessState.FirstCheckStartedAt ≤ 10 ∧
    evaluateCheckStatus futureSuccessState ⟨0, 0⟩ 10 = StatusUp ∧
    evaluateCheckStatus futureSuccessState ⟨0, 0⟩ 10 ≠ StatusDown := by
  decide

/-- C3: createNextCheckState stamps LastCheckedAt = now and stores the
result; on a nil result it resets ContiguousFails to 0 and sets
LastSuccessAt = now; on a non-nil result it increments ContiguousFails by
exactly one and sets LastFailureAt = now; consequently every state it
produces satisfies ContiguousFails = 0 iff the stored result is nil. -/
theorem createNextCheckState_advance :
    ∀ (result : Option GoError) (cfg : EvalCheckConfig) (state : CheckState)
      (now : GoTime),
    (createNextCheckState result cfg state now).LastCheckedAt = now
    ∧ (createNextCheckState result cfg state now).Result = result
    ∧ (result = none →
        (createNextCheckState result cfg state now).ContiguousFails = 0 ∧
        (createNextCheckState result cfg state now).LastSuccessAt = now)
    ∧ (result ≠ none →
        (createNextCheckState result cfg state now).ContiguousFails =
          state.ContiguousFails + 1 ∧
        (createNextCheckState result cfg state now).LastFailureAt = now)
    ∧ ((createNextCheckState result cfg state now).ContiguousFails = 0 ↔
        (createNextCheckState result cfg state now).Result = none) := by
  intro result cfg state now
  by_cases h : result = none <;>
    simp [createNextCheckState, h]

/-- C3 witness: advancing the pristine state with a concrete failure at
time 7 increments the fail counter to one and stamps LastFailureAt. -/
theorem createNextCheckState_advance_witness :
    (createNextCheckState (some ⟨"connection refused"⟩) ⟨0, 0⟩ pristineState 7).ContiguousFails =
      pristineState.ContiguousFails + 1 ∧
    (createNextCheckState (some ⟨"connection refused"⟩) ⟨0, 0⟩ pristineState 7).LastFailureAt = 7 :=
  (createNextCheckState_advance (some ⟨"connection refused"⟩) ⟨0, 0⟩ pristineState 7).2.2.2.1
    (by decide)

/-- C10: once LastCheckedAt is nonzero, evaluateCheckStatus only returns Up
or Down, never Unknown; and every state produced by createNextCheckState at
a nonzero current time has LastCheckedAt = now and a status other than
Unknown, so a component can be Unknown only before its first completed
execution. -/
theorem evaluateCheckStatus_never_unknown_after_check :
    (∀ (state : CheckState) (cfg : EvalCheckConfig) (now : GoTime),
      state.LastCheckedAt ≠ 0 →
      (evaluateCheckStatus state cfg now = StatusUp ∨
        evaluateCheckStatus state cfg now = StatusDown))
    ∧ (∀ (result : Option GoError) (cfg : EvalCheckConfig) (state : CheckState)
        (now : GoTime), now ≠ 0 →
        ((createNextCheckState result cfg state now).LastCheckedAt = now ∧
          (createNextCheckState result cfg state now).Status ≠ StatusUnknown)) := by
  have P1 : ∀ (state : CheckState) (cfg : EvalCheckConfig) (now : GoTime),
      state.LastCheckedAt ≠ 0 →
      (evaluateCheckStatus state cfg now = StatusUp ∨
        evaluateCheckStatus state cfg now = StatusDown) := by
    intro state cfg now h0
    unfold evaluateCheckStatus
    rw [if_neg h0]
    split_ifs <;> simp
  refine ⟨P1, ?_⟩
  intro result cfg state now hnow
  refine ⟨createNextCheckState_lastCheckedAt result cfg state now, ?_⟩
  have key : ∀ s2 : CheckState, s2.LastCheckedAt = now →
      evaluateCheckStatus s2 cfg now ≠ StatusUnknown := by
    intro s2 h2
    rcases P1 s2 cfg now (h2 ▸ hnow) with h | h <;> rw [h] <;> decide
  rw [createNextCheckState_status]
  exact key _ (createNextCheckState_lastCheckedAt result cfg state now)

/-- C10 witness: advancing the pristine state at the nonzero time 7 yields
LastCheckedAt = 7 and a status that is not Unknown. -/
theorem evaluateCheckStatus_never_unknown_after_check_witness :
    (createNextCheckState none ⟨0, 0⟩ pristineState 7).LastCheckedAt = 7 ∧
    (createNextCheckState none ⟨0, 0⟩ pristineState 7).Status ≠ StatusUnknown :=
  (evaluateCheckStatus_never_unknown_after_check).2 none ⟨0, 0⟩ pristineState 7
    (by decide)

/-- aggregateStep returns one of its two arguments. -/
lemma aggregateStep_eq_or (a b : AvailabilityStatus) :
    aggregateStep a b = a ∨ aggregateStep a b = b := by
  unfold aggregateStep
  split_ifs <;> simp

/-- aggregateStep preserves membership in the status enumeration. -/
lemma statusInEnum_aggregateStep {a b : AvailabilityStatus}
    (ha : statusInEnum a) (hb : statusInEnum b) :
    statusInEnum (aggregateStep a b) := by
  rcases aggregateStep_eq_or a b with h | h <;> rw [h] <;> assumption

/-- aggregateStep hits StatusDown exactly when one of its arguments is
StatusDown (within the status enumeration). -/
lemma aggregateStep_down_iff {a b : AvailabilityStatus}
    (ha : statusInEnum a) (hb : statusInEnum b) :
    (aggregateStep a b = StatusDown ↔ a = StatusDown ∨ b = StatusDown) := by
  rcases ha with h | h | h <;> rcases hb with h2 | h2 | h2 <;> subst h <;> subst h2 <;>
    decide

/-- aggregateStep stays at StatusUp exactly when both arguments are
StatusUp (within the status enumeration). -/
lemma aggregateStep_up_iff {a b : AvailabilityStatus}
    (ha : statusInEnum a) (hb : statusInEnum b) :
    (aggregateStep a b = StatusUp ↔ a = StatusUp ∧ b = StatusUp) := by
  rcases ha with h | h | h <;> rcases hb with h2 | h2 | h2 <;> subst h <;> subst h2 <;>
    decide

/-- Folding aggregateStep over states within the enumeration stays within
the enumeration. -/
lemma aggregateFold_enum (l : List (String × CheckState)) :
    ∀ acc, statusInEnum acc → (∀ p ∈ l, statusInEnum p.2.Status) →
      statusInEnum
        (l.foldl (fun status result => aggregateStep status result.2.Status) acc) := by
  induction l with
  | nil => intro acc ha _; simpa using ha
  | cons hd tl ih =>
      intro acc ha hl
      simp only [List.foldl_cons]
      exact ih _ (statusInEnum_aggregateStep ha (hl hd (by simp)))
        (fun p hp => hl p (by simp [hp]))

/-- Folding aggregateStep yields StatusDown exactly when the accumulator or
some entry is StatusDown. -/
lemma aggregateFold_down_iff (l : List (String × CheckState)) :
    ∀ acc, statusInEnum acc → (∀ p ∈ l, statusInEnum p.2.Status) →
      (l.foldl (fun status result => aggregateStep status result.2.Status) acc =
          StatusDown ↔
        acc = StatusDown ∨ ∃ p ∈ l, p.2.Status = StatusDown) := by
  induction l with
  | nil => intro acc ha _; simp
  | cons hd tl ih =>
      intro acc ha hl
      have hhd := hl hd (by simp)
      have htl : ∀ p ∈ tl, statusInEnum p.2.Status := fun p hp => hl p (by simp [hp])
      simp only [List.foldl_cons]
      rw [ih _ (statusInEnum_aggregateStep ha hhd) htl, aggregateStep_down_iff ha hhd]
      simp only [List.mem_cons]
      constructor
      · rintro ((h | h) | ⟨p, hp, h⟩)
        · exact Or.inl h
        · exact Or.inr ⟨hd, Or.inl rfl, h⟩
        · exact Or.inr ⟨p, Or.inr hp, h⟩
      · rintro (h | ⟨p, hp | hp, h⟩)
        · exact Or.inl (Or.inl h)
        · exact Or.inl (Or.inr (hp ▸ h))
        · exact Or.inr ⟨p, hp, h⟩

/-- Folding aggregateStep yields StatusUp exactly when the accumulator and
every entry are StatusUp. -/
lemma aggregateFold_up_iff (l : List (String × CheckState)) :
    ∀ acc, statusInEnum acc → (∀ p ∈ l, statusInEnum p.2.Status) →
      (l.foldl (fun status result => aggregateStep status result.2.Status) acc =
          StatusUp ↔
        acc = StatusUp ∧ ∀ p ∈ l, p.2.Status = StatusUp) := by
  induction l with
  | nil => intro acc ha _; simp
  | cons hd tl ih =>
      intro acc ha hl
      have hhd := hl hd (by simp)
      have htl : ∀ p ∈ tl, statusInEnum p.2.Status := fun p hp => hl p (by simp [hp])
      simp only [List.foldl_cons]
      rw [ih _ (statusInEnum_aggregateStep ha hhd) htl, aggregateStep_up_iff ha hhd]
      simp only [List.forall_mem_cons]
      tauto

/-- C2: aggregateStatus is the maximum-by-criticality status over the
component states with StatusUp as the starting default: it is StatusUp on
the empty map, StatusDown exactly when some component is StatusDown,
StatusUp exactly when every component is StatusUp, and StatusUnknown in
every remaining case (for component statuses drawn from the Up, Down,
Unknown enumeration). -/
theorem aggregateStatus_max_by_criticality :
    ∀ (l : List (String × CheckState)), (∀ p ∈ l, statusInEnum p.2.Status) →
    aggregateStatus ([] : List (String × CheckState)) = StatusUp
    ∧ (aggregateStatus l = StatusDown ↔ ∃ p ∈ l, p.2.Status = StatusDown)
    ∧ (aggregateStatus l = StatusUp ↔ ∀ p ∈ l, p.2.Status = StatusUp)
    ∧ ((¬ ∃ p ∈ l, p.2.Status = StatusDown) →
        (¬ ∀ p ∈ l, p.2.Status = StatusUp) →
        aggregateStatus l = StatusUnknown) := by
  intro l hl
  have hup : statusInEnum StatusUp := Or.inl rfl
  have hne : StatusUp ≠ StatusDown := by decide
  have hDownIff := aggregateFold_down_iff l StatusUp hup hl
  have hUpIff := aggregateFold_up_iff l StatusUp hup hl
  have henum := aggregateFold_enum l StatusUp hup hl
  unfold aggregateStatus
  refine ⟨rfl, ?_, ?_, ?_⟩
  · rw [hDownIff]
    simp [hne]
  · rw [hUpIff]
    simp
  · intro hnd hnu
    rcases henum with h | h | h
    · exact absurd (hUpIff.mp h).2 hnu
    · rcases hDownIff.mp h with h2 | h2
      · exact absurd h2 hne
      · exact absurd h2 hnd
    · exact h

/-- C2 witness: a concrete two-component map with one Up and one Down
component aggregates to StatusDown. -/
theorem aggregateStatus_max_by_criticality_witness :
    aggregateStatus [("db", exampleUpState), ("cache", exampleDownState)] =
      StatusDown :=
  (aggregateStatus_max_by_criticality
    [("db", exampleUpState), ("cache", exampleDownState)] (by decide)).2.1.mpr
    (by decide)

/-- C4: when the deadline fires before the check function delivers a
result, executeCheckFunc returns the synthetic CheckTimeoutErr — a non-nil
error — no matter what result the orphaned goroutine eventually produces
(that result is discarded); this also covers a check function that never
returns. When the check function delivers its result before the deadline,
executeCheckFunc returns exactly that result. -/
theorem executeCheckFunc_timeout :
    (∀ (check : Check) (r : Option GoError),
        executeCheckFunc check (.returns r) true = .value (some CheckTimeoutErr))
    ∧ (some CheckTimeoutErr ≠ (none : Option GoError))
    ∧ (∀ (check : Check) (r : Option GoError),
        executeCheckFunc check (.returns r) false = .value r)
    ∧ (∀ check : Check,
        executeCheckFunc check .hangs true = .value (some CheckTimeoutErr)) :=
  ⟨fun _ _ => rfl, by decide, fun _ _ => rfl, fun _ => rfl⟩

/-- C5: with panic recovery enabled (DisablePanicRecovery = false), a panic
in the check function is converted into a non-nil failure error carrying
the panic value — the value itself when it is an error, otherwise an error
wrapping its formatted text — and delivered as the return value (when the
deadline has not fired first); with DisablePanicRecovery = true the panic
is not recovered and escapes. -/
theorem executeCheckFunc_panic_recovery :
    (∀ (check : Check) (v : PanicValue), check.DisablePanicRecovery = false →
        executeCheckFunc check (.panics v) false = .value (some (recoverPanic v)))
    ∧ (∀ v : PanicValue, some (recoverPanic v) ≠ (none : Option GoError))
    ∧ (∀ e : GoError, recoverPanic (.isError e) = e)
    ∧ (∀ s : String, recoverPanic (.other s) = ⟨s⟩)
    ∧ (∀ (check : Check) (v : PanicValue) (deadlineFirst : Bool),
        check.DisablePanicRecovery = true →
        executeCheckFunc check (.panics v) deadlineFirst = .panicked v) := by
  refine ⟨?_, ?_, fun _ => rfl, fun _ => rfl, ?_⟩
  · intro check v h
    simp [executeCheckFunc, h]
  · intro v
    simp
  · intro check v deadlineFirst h
    simp [executeCheckFunc, h]

/-- C5 witness: a concrete check with recovery enabled converts a panic
with the non-error value "boom" into the failure error with text "boom",
and a concrete check with recovery disabled lets the panic escape. -/
theorem executeCheckFunc_panic_recovery_witness :
    executeCheckFunc plainCheck (.panics (.other "boom")) false =
      .value (some ⟨"boom"⟩) ∧
    executeCheckFunc noRecoveryCheck (.panics (.other "boom")) false =
      .panicked (.other "boom") :=
  ⟨(executeCheckFunc_panic_recovery).1 plainCheck (.other "boom") rfl,
    (executeCheckFunc_panic_recovery).2.2.2.2 noRecoveryCheck (.other "boom") false rfl⟩

/-- C8: the interceptor chain is built by wrapping from the last list
element to the first, so the empty list yields the target itself, a cons
applies its head around the chain of its tail, and a concatenated list
applies the left part outside the right part; executeCheck builds the
chain from the global interceptors followed by the per-check interceptors
around the innermost target, the actual check execution plus state
advance. -/
theorem withInterceptors_composition :
    (∀ target : InterceptorFunc, withInterceptors [] target = target)
    ∧ (∀ (i : Interceptor) (rest : List Interceptor) (target : InterceptorFunc),
        withInterceptors (i :: rest) target = i (withInterceptors rest target))
    ∧ (∀ (gs cs : List Interceptor) (target : InterceptorFunc),
        withInterceptors (gs ++ cs) target =
          withInterceptors gs (withInterceptors cs target))
    ∧ (∀ (gs : List Interceptor) (check : Check) (r : Option GoError)
        (s : CheckState) (now : GoTime),
        executeCheck gs check r s now =
          withInterceptors (gs ++ check.Interceptors)
            (executeCheckTarget check r now) check.Name
            (if s.FirstCheckStartedAt = 0 then
              { s with FirstCheckStartedAt := now }
            else s)) := by
  refine ⟨fun _ => rfl, fun _ _ _ => rfl, ?_, fun _ _ _ _ _ => rfl⟩
  intro gs cs target
  unfold withInterceptors
  exact List.foldr_append _ _ _ _

/-- executeCheck with no interceptors at all runs exactly the innermost
target, so it stamps LastCheckedAt with the execution time. -/
lemma executeCheck_no_interceptors_lastCheckedAt (check : Check)
    (r : Option GoError) (s : CheckState) (now : GoTime)
    (h : check.Interceptors = []) :
    (executeCheck [] check r s now).LastCheckedAt = now := by
  unfold executeCheck
  rw [h]
  exact createNextCheckState_lastCheckedAt r check.evalConfig _ now

/-- C6: a synchronous check is initiated during a Check pass exactly when
its cached LastCheckedAt is unset or older than now minus the cache TTL;
when it is skipped its stored state is returned unchanged; a check that was
just executed (with no interceptors rewriting its state) at a nonzero time
is not initiated again by a second pass within the TTL, and is initiated
again by a pass after TTL expiry. -/
theorem runSyncCheckStep_caching :
    (∀ (ttl : GoDuration) (gs : List Interceptor) (check : Check)
        (r : Option GoError) (s : CheckState) (now : GoTime),
        ((runSyncCheckStep ttl gs check r s now).1 = true ↔
          (s.LastCheckedAt = 0 ∨ s.LastCheckedAt < now - ttl)))
    ∧ (∀ (ttl : GoDuration) (gs : List Interceptor) (check : Check)
        (r : Option GoError) (s : CheckState) (now : GoTime),
        ¬ (s.LastCheckedAt = 0 ∨ s.LastCheckedAt < now - ttl) →
        runSyncCheckStep ttl gs check r s now = (false, s))
    ∧ (∀ (ttl : GoDuration) (check : Check) (r₁ r₂ : Option GoError)
        (s : CheckState) (now₁ now₂ : GoTime),
        check.Interceptors = [] → now₁ ≠ 0 → ¬ now₁ < now₂ - ttl →
        runSyncCheckStep ttl [] check r₂ (executeCheck [] check r₁ s now₁) now₂ =
          (false, executeCheck [] check r₁ s now₁))
    ∧ (∀ (ttl : GoDuration) (gs₂ : List Interceptor) (check : Check)
        (r₁ r₂ : Option GoError) (s : CheckState) (now₁ now₂ : GoTime),
        check.Interceptors = [] → now₁ < now₂ - ttl →
        (runSyncCheckStep ttl gs₂ check r₂ (executeCheck [] check r₁ s now₁) now₂).1 =
          true) := by
  have P1 : ∀ (ttl : GoDuration) (gs : List Interceptor) (check : Check)
      (r : Option GoError) (s : CheckState) (now : GoTime),
      ((runSyncCheckStep ttl gs check r s now).1 = true ↔
        (s.LastCheckedAt = 0 ∨ s.LastCheckedAt < now - ttl)) := by
    intro ttl gs check r s now
    by_cases h : s.LastCheckedAt = 0 ∨ s.LastCheckedAt < now - ttl <;>
      simp [runSyncCheckStep, isCacheExpired, h]
  have P2 : ∀ (ttl : GoDuration) (gs : List Interceptor) (check : Check)
      (r : Option GoError) (s : CheckState) (now : GoTime),
      ¬ (s.LastCheckedAt = 0 ∨ s.LastCheckedAt < now - ttl) →
      runSyncCheckStep ttl gs check r s now = (false, s) := by
    intro ttl gs check r s now h
    simp [runSyncCheckStep, isCacheExpired, h]
  refine ⟨P1, P2, ?_, ?_⟩
  · intro ttl check r₁ r₂ s now₁ now₂ hI h1 h2
    apply P2
    rw [executeCheck_no_interceptors_lastCheckedAt check r₁ s now₁ hI]
    push_neg
    exact ⟨h1, not_lt.mp h2⟩
  · intro ttl gs₂ check r₁ r₂ s now₁ now₂ hI h
    rw [P1]
    rw [executeCheck_no_interceptors_lastCheckedAt check r₁ s now₁ hI]
    exact Or.inr h

/-- C6 witness: a check executed at time 5 with TTL 1 is skipped, with its
state unchanged, by a second pass at time 6. -/
theorem runSyncCheckStep_caching_witness :
    runSyncCheckStep 1 [] plainCheck none
        (executeCheck [] plainCheck none pristineState 5) 6 =
      (false, executeCheck [] plainCheck none pristineState 5) :=
  (runSyncCheckStep_caching).2.2.1 1 plainCheck none none pristineState 5 6
    rfl (by decide) (by decide)

/-- C9: the system-wide status-change listener fires during an updateState
pass exactly when the recomputed aggregate status differs from the
aggregate status before the update and a listener is configured; the
stored status after the pass is the aggregate of the updated map; and when
the aggregate value is unchanged the listener is never invoked, however
many updates were merged. -/
theorem updateState_edge_triggered :
    ∀ (listenerSet : Bool) (st : CheckerState) (updates : List checkResult),
    ((updateState listenerSet st updates).2 = true ↔
      ((updateState listenerSet st updates).1.Status ≠ st.Status ∧
        listenerSet = true))
    ∧ ((updateState listenerSet st updates).1.Status =
        aggregateStatus ((updateState listenerSet st updates).1.CheckState))
    ∧ ((updateState listenerSet st updates).1.Status = st.Status →
        (updateState listenerSet st updates).2 = false) := by
  intro listenerSet st updates
  refine ⟨?_, rfl, ?_⟩
  · simp only [updateState, Bool.and_eq_true, decide_eq_true_eq]
    exact and_congr_left fun _ => ne_comm
  · intro h
    simp only [updateState] at h ⊢
    simp [h]

/-- C9 witness: an update pass that leaves the aggregate status at StatusUp
does not invoke the listener even though a listener is configured. -/
theorem updateState_edge_triggered_witness :
    (updateState true emptyCheckerState []).2 = false :=
  (updateState_edge_triggered true emptyCheckerState []).2.2 (by decide)

/-- C7 counterexample: the claim says calling Stop() before any Start() is
a no-op, but on the never-started checker Stop() calls the nil ck.cancel
function and panics (modelled as none), so the lifecycle state is not left
unchanged. -/
theorem checker_stop_before_start_not_noop :
    checkerStop newCheckerLifecycle = none ∧
    checkerStop newCheckerLifecycle ≠ some newCheckerLifecycle := by
  decide

/-- C7 (amended): after Start() the running periodic (async) check count
equals the number of configured async checks; a second Start() while
started changes nothing; Stop() on a started checker succeeds and resets
the count to 0; but Stop() before any Start() is not a no-op — it calls a
nil cancel function and panics. -/
theorem checker_start_stop_counts :
    (∀ n : Nat,
        GetRunningPeriodicCheckCount (checkerStart n newCheckerLifecycle) = n)
    ∧ (∀ n : Nat,
        checkerStart n (checkerStart n newCheckerLifecycle) =
          checkerStart n newCheckerLifecycle)
    ∧ (∀ (n : Nat) (s : CheckerLifecycle), s.started = true → checkerStart n s = s)
    ∧ (∀ s : CheckerLifecycle, s.cancelSet = true →
        ∃ s', checkerStop s = some s' ∧ GetRunningPeriodicCheckCount s' = 0)
    ∧ checkerStop newCheckerLifecycle = none := by
  refine ⟨?_, ?_, ?_, ?_, rfl⟩
  · intro n
    simp [checkerStart, newCheckerLifecycle, GetRunningPeriodicCheckCount]
  · intro n
    simp [checkerStart, newCheckerLifecycle]
  · intro n s h
    simp [checkerStart, h]
  · intro s h
    refine ⟨{ s with started := false, asyncCheckCount := 0 }, ?_, rfl⟩
    simp [checkerStop, h]

/-- C7 witness: on a concrete started checker with three running periodic
checks, a further Start() changes nothing and Stop() succeeds, resetting
the running count to zero. -/
theorem checker_start_stop_counts_witness :
    checkerStart 3 startedLifecycle = startedLifecycle ∧
    (∃ s', checkerStop startedLifecycle = some s' ∧
      GetRunningPeriodicCheckCount s' = 0) :=
  ⟨(checker_start_stop_counts).2.2.1 3 startedLifecycle rfl,
    (checker_start_stop_counts).2.2.2.1 startedLifecycle rfl⟩

end Health
